import Mathlib

/-!
Verification development for the dmtools-basestar orchestration core.

Shallow embedding of:
  * `src/js/audio-engine.js`  (class AudioEngine)
  * `src/js/lighting.js`      (class LightingController, first version in the file:
    the one whose `applySceneLighting`/`turnOffAll` take the `fadeDuration`
    parameters that `SceneManager` passes)
  * `src/unnamed/part_002`    (class SceneManager, the scene-toggle /
    ambient-adaptation / concurrent-trigger variant that `src/js/app.js` wires up)
  * `src/unnamed/part_003`    (class ConfigManager)

Conventions used throughout:
  * JS numbers that hold volumes are modelled as `Rat`; integral quantities
    (delays, durations, brightness, colors) as `Nat`.
  * JS `undefined`/absent optional fields are `Option.none`.
  * Source fields named `audio` are rendered here with the suffixed names
    `audioCfg` / `audioSt` (same data, only the identifier differs).
  * Remote HTTP calls are modelled as emitted requests on a timed trace; an
    awaited network call resolves immediately (the program never waits on a
    device-side fade), while `delay(ms)` and audio fade-outs advance time.
-/

/-- A WLED lighting intent as found in scene/trigger configuration
(spec section 3 `LightingIntent`; consumed by `applyWLEDConfig` in
`src/js/lighting.js`). The `restore` flag is a JS truthy check, hence `Bool`. -/
structure WledIntent where
  brightness : Option Nat := none
  color : Option (List Nat) := none
  effect : Option String := none
  speed : Option Nat := none
  intensity : Option Nat := none
  duration : Option Nat := none
  restore : Bool := false
deriving Repr, DecidableEq

/-- The `homeAssistant` field of a lighting descriptor: the source distinguishes
a single command string from an array via `Array.isArray`. -/
inductive HAField where
  | single (cmd : String)
  | multiple (cmds : List String)
deriving Repr, DecidableEq

/-- A lighting descriptor `\x7bwled?, homeAssistant?\x7d` of a scene or a sequence event. -/
structure LightingSpec where
  wled : Option WledIntent := none
  homeAssistant : Option HAField := none
deriving Repr, DecidableEq

/-- The `audio` sub-object of a trigger-sequence event
(`\x7btrigger?: path, ambient?: path|path[]\x7d`); a single ambient path is modelled
as a one-element list (`playAmbient` wraps single paths into an array anyway). -/
structure EventAudioCfg where
  trigger : Option String := none
  ambient : Option (List String) := none
deriving Repr, DecidableEq

/-- One timed event of a trigger sequence (source field `audio` is `audioCfg` here). -/
structure SeqEvent where
  delay : Nat := 0
  audioCfg : Option EventAudioCfg := none
  lighting : Option LightingSpec := none
deriving Repr, DecidableEq

/-- The `audio` descriptor of a scene. `startScene` only ever reads `.ambient`
(music is managed independently), so only that field is modelled. -/
structure SceneAudioCfg where
  ambient : Option (List String) := none
deriving Repr, DecidableEq

/-- A static scene definition (source field `audio` is `audioCfg` here). -/
structure SceneCfg where
  name : String := ""
  audioCfg : Option SceneAudioCfg := none
  lighting : Option LightingSpec := none
deriving Repr, DecidableEq

/-- A static trigger definition; `sequence` is `none` when the config has no
array there (`trigger.sequence && Array.isArray(trigger.sequence)` guard). -/
structure TriggerCfg where
  name : String := ""
  sequence : Option (List SeqEvent) := none
deriving Repr, DecidableEq

/-- The pre-validated configuration object served by ConfigManager
(`src/unnamed/part_003`). Scenes/triggers are JS objects keyed by id,
modelled as association lists. -/
structure Config where
  scenes : List (String × SceneCfg) := []
  triggers : List (String × TriggerCfg) := []
  fadeDuration : Option Nat := none
  lightingFadeDuration : Option Nat := none
  wledEnabled : Bool := false
  haEnabled : Bool := false
  overrideDDP : Option Bool := none
  reenableDDPOnStop : Option Bool := none
deriving Repr, DecidableEq

/-- `configManager.getScene(sceneId)` — `this.config?.scenes?.[sceneId]`. -/
def Config.getScene (c : Config) (sceneId : String) : Option SceneCfg :=
  c.scenes.lookup sceneId

/-- `configManager.getTrigger(triggerId)` — `this.config?.triggers?.[triggerId]`. -/
def Config.getTrigger (c : Config) (triggerId : String) : Option TriggerCfg :=
  c.triggers.lookup triggerId

/-- `shouldOverrideDDP()` — `this.config?.lighting?.wled?.overrideDDP !== false`. -/
def Config.shouldOverrideDDP (c : Config) : Bool :=
  c.overrideDDP ≠ some false

/-- `shouldReenableDDPOnStop()` — `... .reenableDDPOnStop === true`. -/
def Config.shouldReenableDDPOnStop (c : Config) : Bool :=
  c.reenableDDPOnStop = some true

/-- The resolved audio fade duration:
`this.configManager.getConfig()?.audio?.fadeDuration || 1000`.
JS `||` treats 0 as falsy, so a configured 0 also yields 1000. -/
def Config.audioFadeDuration (c : Config) : Nat :=
  match c.fadeDuration with
  | none => 1000
  | some 0 => 1000
  | some d => d

/-- The resolved lighting fade duration:
`this.configManager.getConfig()?.audio?.lightingFadeDuration || 0`. -/
def Config.lightFadeDuration (c : Config) : Nat :=
  c.lightingFadeDuration.getD 0

/-- JS `x || d` on an optional number: absent and 0 both fall back to `d`
(the truthiness default used by `adaptTriggerToAmbient`). -/
def jsOrNat (o : Option Nat) (d : Nat) : Nat :=
  match o with
  | none => d
  | some 0 => d
  | some n => n

/-- `Math.round(d / 100)` for a natural millisecond count `d`
(WLED transition deciseconds; `Math.round` rounds half up). -/
def jsRound100 (d : Nat) : Nat := (d + 50) / 100

/-- One WLED segment object as built by `applyWLEDConfig`
(`seg: [\x7b...\x7d]`, always a single segment). -/
structure WledSeg where
  col : Option (List (List Nat)) := none
  fx : Option Nat := none
  sx : Option Nat := none
  ix : Option Nat := none
deriving Repr, DecidableEq

/-- A WLED JSON state request body as sent by `setWLEDState`. -/
structure WledState where
  power : Option Bool := none
  bri : Option Nat := none
  seg : Option WledSeg := none
  transition : Option Nat := none
  lor : Option Nat := none
deriving Repr, DecidableEq

/-- The fixed effect-name table of `applyWLEDConfig` (first LightingController
version in `src/js/lighting.js`). -/
def effectMap (n : String) : Option Nat :=
  if n = "Solid" then some 0
  else if n = "Blink" then some 1
  else if n = "Breathe" then some 2
  else if n = "Wipe" then some 3
  else if n = "Chase" then some 28
  else if n = "Fire" then some 44
  else if n = "Flicker" then some 96
  else if n = "Candle Multi" then some 88
  else none

/-- The state object `applyWLEDConfig` builds from a `WledIntent`:
always `on: true`; optional fields only when present; `effectMap[e] || 0`
for effect codes; speed/intensity clamped to 255 (the `Math.max(0, ·)` side is
trivial on `Nat`); duration milliseconds to deciseconds, clamped to 255.
The `restore` field is never consulted here, exactly as in the source. -/
def buildWledState (c : WledIntent) : WledState :=
  let st : WledState := { power := some true }
  let st := match c.brightness with
    | some b => { st with bri := some b }
    | none => st
  let st := match c.color with
    | some col => { st with seg := some { col := some [col] } }
    | none => st
  let st := match c.effect with
    | some e =>
      let effectId := (effectMap e).getD 0
      let sg := st.seg.getD {}
      { st with seg := some { sg with fx := some effectId } }
    | none => st
  let st := match c.speed with
    | some sp =>
      let sg := st.seg.getD {}
      { st with seg := some { sg with sx := some (min 255 sp) } }
    | none => st
  let st := match c.intensity with
    | some iv =>
      let sg := st.seg.getD {}
      { st with seg := some { sg with ix := some (min 255 iv) } }
    | none => st
  let st := match c.duration with
    | some d => { st with transition := some (min 255 (jsRound100 d)) }
    | none => st
  st

/-- Observable actions of the orchestration core, recorded on a timed trace. -/
inductive Act where
  | wledReq (st : WledState)
  | haReq (payload : HAField)
  | ambFade (src : String)
  | ambPause (src : String)
  | ambPlay (src : String)
  | trigFade (src : String)
  | trigPause (src : String)
  | trigPlay (src : String)
  | setActive (sc : Option String)
deriving Repr, DecidableEq

/-- A trace of timed observable actions (milliseconds from the run's origin). -/
abbrev Trace := List (Nat × Act)

/-- `setWLEDState(state, overrideDDP = null)`: no-op when WLED is disabled;
otherwise sets `lor = 2` when override is requested (argument if non-null, else
the config default) and POSTs the state. -/
def lcSetWLEDState (cfg : Config) (st : WledState) (overrideDDP : Option Bool)
    (t : Nat) : Trace :=
  if cfg.wledEnabled then
    let shouldOverride := overrideDDP.getD cfg.shouldOverrideDDP
    let st := if shouldOverride then { st with lor := some 2 } else st
    [(t, Act.wledReq st)]
  else []

/-- `applyWLEDConfig(config)`: guard on WLED enabled, build the state, send it. -/
def lcApplyWLEDConfig (cfg : Config) (c : WledIntent) (t : Nat) : Trace :=
  if cfg.wledEnabled then lcSetWLEDState cfg (buildWledState c) none t else []

/-- `sendHomeAssistantCommand(command)`: posts whatever payload it is given
(note `SceneManager.executeSequence` passes the raw field, array or not). -/
def lcSendHACommand (cfg : Config) (command : HAField) (t : Nat) : Trace :=
  if cfg.haEnabled then [(t, Act.haReq command)] else []

/-- The `for (const command of ...) \x7bsend; await delay(100)\x7d` loop of
`applySceneLighting`: each command at 100 ms after the previous, and the loop
resolves 100 ms after the last send. Returns (resolution time, trace). -/
def haSeq (cfg : Config) (cmds : List String) (t : Nat) : Nat × Trace :=
  match cmds with
  | [] => (t, [])
  | c :: rest =>
    ((haSeq cfg rest (t + 100)).1,
     lcSendHACommand cfg (HAField.single c) t ++ (haSeq cfg rest (t + 100)).2)

/-- `applySceneLighting(lightingConfig, fadeDuration = null)` (first version):
clones the wled intent, injects `duration := fadeDuration` when non-null and
positive, applies it, then sends the homeAssistant command(s).
Returns (resolution time, trace). -/
def lcApplySceneLighting (cfg : Config) (l : LightingSpec)
    (fadeDuration : Option Nat) (t : Nat) : Nat × Trace :=
  let wledTrace := match l.wled with
    | some w =>
      let w := match fadeDuration with
        | some f => if 0 < f then { w with duration := some f } else w
        | none => w
      lcApplyWLEDConfig cfg w t
    | none => []
  match l.homeAssistant with
  | some (HAField.multiple cmds) =>
    ((haSeq cfg cmds t).1, wledTrace ++ (haSeq cfg cmds t).2)
  | some (HAField.single c) => (t, wledTrace ++ lcSendHACommand cfg (HAField.single c) t)
  | none => (t, wledTrace)

/-- `turnOffAll(reenableDDP = null, fadeDuration = null)` (first version):
sends `on: false` (with a transition when a positive fade is given), then
optionally re-enables live mode with a bare `\x7blor: 0\x7d` POST (that POST goes
through `fetch` directly, not `setWLEDState`, hence no `lor := 2`). -/
def lcTurnOffAll (cfg : Config) (reenableDDP : Option Bool)
    (fadeDuration : Option Nat) (t : Nat) : Trace :=
  if cfg.wledEnabled then
    let st : WledState := { power := some false }
    let st := match fadeDuration with
      | some f => if 0 < f then { st with transition := some (min 255 (jsRound100 f)) } else st
      | none => st
    let tr := lcSetWLEDState cfg st none t
    let shouldReenable := reenableDDP.getD cfg.shouldReenableDDPOnStop
    if shouldReenable then tr ++ [(t, Act.wledReq { lor := some 0 })] else tr
  else []

/-- `restoreWLEDState()` (first version in `src/js/lighting.js`, lines 311-318):
"for now, just turn off the lights" — sends `\x7bon: false\x7d` through `setWLEDState`. -/
def lcRestoreWLEDState (cfg : Config) (t : Nat) : Trace :=
  if cfg.wledEnabled then lcSetWLEDState cfg { power := some false } none t else []

/-! ## Audio engine (`src/js/audio-engine.js`)

Untimed state view used by the volume / playlist / playback claims.
Fade-outs are modelled by their final effect on the element (paused, position
reset, volume restored); the timed behaviour of ambient fades is modelled
separately for the orchestrator below. -/

/-- The audio categories (`music`, `ambient`, `trigger`). -/
inductive ACat where
  | music
  | ambient
  | trigger
deriving Repr, DecidableEq

/-- An `HTMLAudioElement` as far as the engine observes it. A fresh
`new Audio()` is paused at position 0. -/
structure AudioElement where
  src : String := ""
  volume : Rat := 1
  loop : Bool := false
  paused : Bool := true
  currentTime : Rat := 0
deriving Repr, DecidableEq

/-- `this.playlists` of the engine. -/
structure PlaylistsSt where
  music : Option (List String) := none
  musicShuffled : Option (List String) := none
  currentIndex : Nat := 0
  shuffle : Bool := false
deriving Repr, DecidableEq

/-- `this.volumes` of the engine. -/
structure VolumesSt where
  music : Rat := 1/2
  ambient : Rat := 1/2
  trigger : Rat := 1/2
deriving Repr, DecidableEq

/-- Read `this.volumes[type]`. -/
def VolumesSt.get (v : VolumesSt) : ACat → Rat
  | ACat.music => v.music
  | ACat.ambient => v.ambient
  | ACat.trigger => v.trigger

/-- Write `this.volumes[type] = x`. -/
def VolumesSt.set (v : VolumesSt) : ACat → Rat → VolumesSt
  | ACat.music, x => { v with music := x }
  | ACat.ambient, x => { v with ambient := x }
  | ACat.trigger, x => { v with trigger := x }

/-- The engine's mutable state (`tracks`, `audioElements`, `playlists`,
`volumes`), together with the `fileVolumes` table the engine reads from the
config manager (`getConfig()?.audio?.fileVolumes || \x7b\x7d`). -/
structure AudioEngineState where
  fileVolumes : List (String × Rat) := []
  tracksMusic : Option String := none
  tracksAmbient : List String := []
  tracksTrigger : List String := []
  elMusic : Option AudioElement := none
  elAmbient : List AudioElement := []
  elTrigger : List AudioElement := []
  playlists : PlaylistsSt := {}
  volumes : VolumesSt := {}
deriving Repr, DecidableEq

/-- The currently tracked elements of one category (`audioElements[type]`,
with the single nullable music slot as a 0/1-element list). -/
def catElems (s : AudioEngineState) : ACat → List AudioElement
  | ACat.music => s.elMusic.toList
  | ACat.ambient => s.elAmbient
  | ACat.trigger => s.elTrigger

/-- `createAudioElement(type, source = null)`: base category volume, times the
per-file multiplier when one is configured for `source`, capped at 1
(`audio.volume = Math.min(1, volume)`); music and ambient loop by default. -/
def createAudioElement (s : AudioEngineState) (type : ACat)
    (source : Option String) : AudioElement :=
  let volume := s.volumes.get type
  let volume := match source with
    | none => volume
    | some src =>
      match s.fileVolumes.lookup src with
      | none => volume
      | some m => volume * m
  { src := ""
    volume := min 1 volume
    loop := type = ACat.music ∨ type = ACat.ambient
    paused := true
    currentTime := 0 }

/-- `setVolume(type, volume)` (`src/js/audio-engine.js` lines 505-527):
rejects values outside [0,1] with a logged error and no state change;
otherwise stores the volume and applies it to every tracked element of the
category. Returns the new state and the `console.error` log. -/
def setVolume (s : AudioEngineState) (type : ACat) (volume : Rat) :
    AudioEngineState × List String :=
  if volume < 0 ∨ volume > 1 then
    (s, ["Volume must be between 0 and 1"])
  else
    let s := { s with volumes := s.volumes.set type volume }
    let s :=
      match type with
      | ACat.music =>
        { s with elMusic := s.elMusic.map (fun a => { a with volume := volume }) }
      | ACat.ambient =>
        { s with elAmbient := s.elAmbient.map (fun a => { a with volume := volume }) }
      | ACat.trigger =>
        { s with elTrigger := s.elTrigger.map (fun a => { a with volume := volume }) }
    (s, [])

/-- `getVolume(type)`. -/
def getVolume (s : AudioEngineState) (type : ACat) : Rat :=
  s.volumes.get type

/-- The ordering `playNextInPlaylist`/`skipPrevious` navigate:
`this.playlists.shuffle ? this.playlists.musicShuffled : this.playlists.music`. -/
def activeOrdering (s : AudioEngineState) : List String :=
  if s.playlists.shuffle then s.playlists.musicShuffled.getD []
  else s.playlists.music.getD []

/-- `playNextInPlaylist()` (`src/js/audio-engine.js` lines 246-262): guarded on
a non-empty loaded playlist; advances `currentIndex` modulo the active
ordering's length, points the music element at the new track and plays it. -/
def playNextInPlaylist (s : AudioEngineState) : AudioEngineState :=
  match s.playlists.music with
  | none => s
  | some pl =>
    if pl.length = 0 then s
    else
      let playlist := if s.playlists.shuffle then s.playlists.musicShuffled.getD [] else pl
      let idx := (s.playlists.currentIndex + 1) % playlist.length
      let nextTrack := playlist.getD idx ""
      { s with
        playlists := { s.playlists with currentIndex := idx }
        elMusic := s.elMusic.map (fun a =>
          { a with src := nextTrack, currentTime := 0, paused := false })
        tracksMusic := some nextTrack }

/-- `skipPrevious()` (`src/js/audio-engine.js` lines 280-300): same guard;
`(currentIndex - 1 + playlist.length) % playlist.length` (written with the
addition first, which is the same value and avoids ℕ truncation). -/
def skipPrevious (s : AudioEngineState) : AudioEngineState :=
  match s.playlists.music with
  | none => s
  | some pl =>
    if pl.length = 0 then s
    else
      let playlist := if s.playlists.shuffle then s.playlists.musicShuffled.getD [] else pl
      let idx := (s.playlists.currentIndex + playlist.length - 1) % playlist.length
      let prevTrack := playlist.getD idx ""
      { s with
        playlists := { s.playlists with currentIndex := idx }
        elMusic := s.elMusic.map (fun a =>
          { a with src := prevTrack, currentTime := 0, paused := false })
        tracksMusic := some prevTrack }

/-- The net effect of `stopMusic()` on the engine state: `fadeOut` leaves the
music element paused at position 0 with its volume restored, and the playlist
bookkeeping is cleared. -/
def stopMusicState (s : AudioEngineState) : AudioEngineState :=
  { s with
    elMusic := s.elMusic.map (fun a => { a with paused := true, currentTime := 0 })
    tracksMusic := none
    playlists :=
      { music := none, musicShuffled := none, currentIndex := 0, shuffle := false } }

/-- `playMusic(source, loop, shuffle)` restricted to the explicit-array branch
(`src/js/audio-engine.js` lines 148-191). `shuffleOracle` stands for the
`Math.random`-driven Fisher-Yates `shuffleArray`; any permutation function may
be plugged in. An array (even an empty one) passes the `if (!source) return`
truthiness guard, so the guard does not appear on this branch. Returns the new
state and the `console.error` log. -/
def playMusicList (s : AudioEngineState) (source : List String)
    (loop shuffle : Bool) (shuffleOracle : List String → List String) :
    AudioEngineState × List String :=
  let s := stopMusicState s
  let s := { s with playlists :=
    { music := some source
      shuffle := shuffle
      currentIndex := 0
      musicShuffled := if shuffle then some (shuffleOracle source) else none } }
  let playlist := if shuffle then shuffleOracle source else source
  if playlist.length = 0 then
    (s, ["No tracks in playlist"])
  else
    let first := playlist.getD 0 ""
    let el := createAudioElement s ACat.music (some first)
    let el := { el with src := first, loop := false, paused := false }
    ({ s with elMusic := some el, tracksMusic := some first }, [])

/-- The record returned by `getCurrentTrack()`; `duration` is a media property
of the element, not engine state, and is omitted. -/
structure TrackInfo where
  path : String
  name : String
  isPlaying : Bool
  isPaused : Bool
  currentTime : Rat
  isPlaylist : Bool
  playlistLength : Nat
  currentIndex : Int
  shuffle : Bool
deriving Repr, DecidableEq

/-- `getCurrentTrack()` (`src/js/audio-engine.js` lines 306-327): null unless
both a music element and a tracked music path exist. -/
def getCurrentTrack (s : AudioEngineState) : Option TrackInfo :=
  match s.elMusic, s.tracksMusic with
  | some el, some tm =>
    let playlist : Option (List String) :=
      match s.playlists.music with
      | some pl => some (if s.playlists.shuffle then s.playlists.musicShuffled.getD [] else pl)
      | none => none
    some
      { path := tm
        name := (tm.splitOn "/").getLastD tm
        isPlaying := ¬el.paused
        isPaused := el.paused
        currentTime := el.currentTime
        isPlaylist := playlist.isSome
        playlistLength := (playlist.getD []).length
        currentIndex := if playlist.isSome then (s.playlists.currentIndex : Int) else -1
        shuffle := s.playlists.shuffle }
  | _, _ => none

/-! ## Timed ambient/trigger audio model

The orchestrator claims are about *when* things happen, so the ambient and
trigger channels get a timed model. `fadeOut(audio, D)` (audio-engine.js lines
417-444) resolves immediately for a paused element and otherwise pauses the
element when its interval completes, `D` ms after the call. `stopAmbient`
fades all layers simultaneously (`Promise.all`), then clears the arrays; the
whole call resolves when the slowest fade does. Awaited network calls resolve
immediately (no retries, no timeouts in steady state), so only delays and
fades advance the clock. -/

/-- One ambient (or trigger) `HTMLAudioElement` with its audibility window:
the layer is audible from `startT` until `pauseT` (exclusive), or forever if
`pauseT = none` (still playing, no fade scheduled). -/
structure AmbLayer where
  src : String
  startT : Nat := 0
  pauseT : Option Nat := none
deriving Repr, DecidableEq

/-- Whether `audio.paused` is already true at time `t`. -/
def AmbLayer.pausedBy (l : AmbLayer) (t : Nat) : Bool :=
  match l.pauseT with
  | some p => p ≤ t
  | none => false

/-- The state of the ambient and trigger channels as the orchestrator sees
them. `ambientClearAt` records the pending continuation of an *un-awaited*
`stopAmbient()` call (the `audioElements.ambient = []` line that runs when its
`Promise.all` resolves); `none` when no such continuation is pending. -/
structure TimedAudioSt where
  ambient : List AmbLayer := []
  ambientClearAt : Option Nat := none
  triggerSnds : List AmbLayer := []
deriving Repr, DecidableEq

/-- The layers `this.audioElements.ambient` still references at time `t`
(a pending un-awaited clear empties the array at `ambientClearAt`). -/
def effAmbient (a : TimedAudioSt) (t : Nat) : List AmbLayer :=
  match a.ambientClearAt with
  | some c => if c ≤ t then [] else a.ambient
  | none => a.ambient

/-- When `Promise.all` over `fadeOut` of the given layers resolves when started
at `t` with fade duration `D`: immediately if every element is already paused
(each `fadeOut` resolves at once), else when the intervals finish at `t + D`. -/
def layersResolveAt (ls : List AmbLayer) (t D : Nat) : Nat :=
  if ls.all (fun l => l.pausedBy t) then t else t + D

/-- Starting `fadeOut` at `t` over `D` ms on one layer: a paused element is
untouched; an unpaused one will be paused by whichever running interval
completes first (an earlier equal-length fade can only finish sooner). -/
def fadeLayer (t D : Nat) (l : AmbLayer) : AmbLayer :=
  if l.pausedBy t then l
  else { l with pauseT := some (min (l.pauseT.getD (t + D)) (t + D)) }

/-- Fade/pause trace of starting fades at `t` on the given layers: a fade-start
event now and a pause event at `t + D` for each layer that has no fade running
yet (layers already fading had their pause recorded when that fade started;
a second interval on the same element cannot pause it any later). -/
def fadeTrace (mk : String → Act) (mkP : String → Act)
    (ls : List AmbLayer) (t D : Nat) : Trace :=
  (ls.filter (fun l => l.pauseT = none)).map (fun l => (t, mk l.src)) ++
  (ls.filter (fun l => l.pauseT = none)).map (fun l => (t + D, mkP l.src))

/-- `stopAmbient(fadeDuration)` when **awaited**: fades every referenced layer,
waits for all fades, then clears the array (and cancels any pending clear,
which at that point clears an already-empty array). Returns the state, the
resolution time and the trace. -/
def aeStopAmbient (a : TimedAudioSt) (D t : Nat) : TimedAudioSt × Nat × Trace :=
  let cur := effAmbient a t
  let tEnd := layersResolveAt cur t D
  ({ a with ambient := [], ambientClearAt := none },
   tEnd,
   fadeTrace Act.ambFade Act.ambPause cur t D)

/-- `stopAmbient(fadeDuration)` when called **without** `await` (as in
`SceneManager.stopScene`): the fades start synchronously, the caller continues
at `t`, and the array clear is left pending until the fades resolve. -/
def aeStopAmbientNoAwait (a : TimedAudioSt) (D t : Nat) : TimedAudioSt × Trace :=
  let cur := effAmbient a t
  let tEnd := layersResolveAt cur t D
  ({ a with ambient := cur.map (fadeLayer t D), ambientClearAt := some tEnd },
   fadeTrace Act.ambFade Act.ambPause cur t D)

/-- `playAmbient(sources)` (audio-engine.js lines 386-409): awaits
`stopAmbient()`, then (sources permitting) starts one looping layer per path;
each `audio.play()` resolves immediately. -/
def aePlayAmbient (a : TimedAudioSt) (sources : List String) (D t : Nat) :
    TimedAudioSt × Nat × Trace :=
  let stopped := aeStopAmbient a D t
  let t1 := stopped.2.1
  let newLayers := sources.map (fun src => ({ src := src, startT := t1 } : AmbLayer))
  ({ stopped.1 with ambient := newLayers },
   t1,
   stopped.2.2 ++ sources.map (fun src => (t1, Act.ambPlay src)))

/-- `stopTriggers(fadeDuration)` (audio-engine.js lines 542-557): same shape as
the awaited `stopAmbient`, on the trigger channel. -/
def aeStopTriggers (a : TimedAudioSt) (D t : Nat) : TimedAudioSt × Nat × Trace :=
  let cur := a.triggerSnds
  let tEnd := layersResolveAt cur t D
  ({ a with triggerSnds := [] },
   tEnd,
   fadeTrace Act.trigFade Act.trigPause cur t D)

/-- `playTrigger(source)` (audio-engine.js lines 472-498): one non-looping
one-shot sound, appended to the tracked set; resolves immediately. -/
def aePlayTrigger (a : TimedAudioSt) (src : String) (t : Nat) :
    TimedAudioSt × Trace :=
  ({ a with triggerSnds := a.triggerSnds ++ [{ src := src, startT := t }] },
   [(t, Act.trigPlay src)])

/-! ## The orchestrator (`SceneManager`, `src/unnamed/part_002`) -/

/-- The world the orchestrator acts on: the configuration, the timed audio
channels, and the single `activeScene` slot. -/
structure World where
  cfg : Config
  audioSt : TimedAudioSt := {}
  activeScene : Option String := none
deriving Repr, DecidableEq

/-- `adaptTriggerToAmbient` helper `addSolid`: the `forEach` that sets
`event.lighting.wled.effect = "Solid"` on the cloned sequence. -/
def addSolid (e : SeqEvent) : SeqEvent :=
  match e.lighting with
  | some l =>
    match l.wled with
    | some w => { e with lighting := some { l with wled := some { w with effect := some "Solid" } } }
    | none => e
  | none => e

/-- `adaptTriggerToAmbient(sequence)` (`src/unnamed/part_002` lines 69-116).
`JSON.parse(JSON.stringify(sequence))` deep-copies the sequence, so the stored
definition is never written to; on this value representation the copy is the
value itself and the in-place writes become functional updates on the copy.
Control flow follows the source: Solid is added to every wled event, the
guards `!activeScene` / `!scene` / `!scene.lighting` / `!scene.lighting.wled`
return early, and otherwise every event with positive wled `duration` and
positive `delay` has brightness/color replaced by the ambient values
(`brightness || 128`, `color || [128,128,128]`). -/
def smAdaptTriggerToAmbient (cfg : Config) (activeScene : Option String)
    (sequence : List SeqEvent) : List SeqEvent :=
  let clonedSequence := sequence.map addSolid
  match activeScene with
  | none => clonedSequence
  | some sid =>
    match cfg.getScene sid with
    | none => clonedSequence
    | some scene =>
      match scene.lighting with
      | none => clonedSequence
      | some sl =>
        match sl.wled with
        | none => clonedSequence
        | some sw =>
          let ambientBrightness := jsOrNat sw.brightness 128
          let ambientColor := sw.color.getD [128, 128, 128]
          clonedSequence.map (fun event =>
            match event.lighting with
            | some l =>
              match l.wled with
              | some w =>
                if w.duration.getD 0 > 0 ∧ event.delay > 0 then
                  let w2 := { w with brightness := some ambientBrightness,
                                     color := some ambientColor }
                  { event with lighting := some { l with wled := some w2 } }
                else event
              | none => event
            | none => event)

/-- One iteration of the `executeSequence` loop (`src/unnamed/part_002` lines
122-152): wait the relative delay, fire audio sub-events (trigger sound,
ambient), then lighting sub-events (`applyWLEDConfig` — the `restore` flag is
*not* consulted on this path — and the raw homeAssistant field). -/
def smExecEvent (cfg : Config) (st : TimedAudioSt × Nat × Trace)
    (event : SeqEvent) : TimedAudioSt × Nat × Trace :=
  let (a, t, tr) := st
  let t := if event.delay > 0 then t + event.delay else t
  let (a, t, tr) :=
    match event.audioCfg with
    | some ea =>
      let (a, tr2) :=
        match ea.trigger with
        | some src => aePlayTrigger a src t
        | none => (a, [])
      let (a, t, tr3) :=
        match ea.ambient with
        | some srcs => aePlayAmbient a srcs cfg.audioFadeDuration t
        | none => (a, t, [])
      (a, t, tr ++ tr2 ++ tr3)
    | none => (a, t, tr)
  match event.lighting with
  | some l =>
    let trW :=
      match l.wled with
      | some wcfg => lcApplyWLEDConfig cfg wcfg t
      | none => []
    let trH :=
      match l.homeAssistant with
      | some h => lcSendHACommand cfg h t
      | none => []
    (a, t, tr ++ trW ++ trH)
  | none => (a, t, tr)

/-- `executeSequence(sequence)`: the events in declared order. -/
def smExecuteSequence (cfg : Config) (a : TimedAudioSt)
    (sequence : List SeqEvent) (t : Nat) : TimedAudioSt × Nat × Trace :=
  sequence.foldl (smExecEvent cfg) (a, t, [])

/-- `stopScene()` (`src/unnamed/part_002` lines 232-247): no-op when no scene
is active; otherwise starts the ambient fade-out **without awaiting it** (the
source line `this.audioEngine.stopAmbient();` has no `await`), awaits
`turnOffAll(null, lightingFadeDuration)`, and clears the active-scene slot. -/
def smStopScene (w : World) (t : Nat) : World × Nat × Trace :=
  match w.activeScene with
  | none => (w, t, [])
  | some _ =>
    let lightingFade := w.cfg.lightFadeDuration
    let stopped := aeStopAmbientNoAwait w.audioSt w.cfg.audioFadeDuration t
    let trL := lcTurnOffAll w.cfg none (some lightingFade) t
    ({ w with audioSt := stopped.1, activeScene := none },
     t,
     stopped.2 ++ trL ++ [(t, Act.setActive none)])

/-- The ambient-audio step of `startScene` (`src/unnamed/part_002` lines
215-221): `if (scene.audio) if (scene.audio.ambient) await playAmbient(...)`. -/
def smStartSceneAmbPart (cfg : Config) (aud : TimedAudioSt) (scene : SceneCfg)
    (t : Nat) : TimedAudioSt × Nat × Trace :=
  match scene.audioCfg with
  | some sa =>
    match sa.ambient with
    | some srcs => aePlayAmbient aud srcs cfg.audioFadeDuration t
    | none => (aud, t, ([] : Trace))
  | none => (aud, t, ([] : Trace))

/-- The lighting step of `startScene` (`src/unnamed/part_002` lines 223-226):
`if (scene.lighting) await applySceneLighting(scene.lighting, fade)`. -/
def smStartSceneLightPart (cfg : Config) (scene : SceneCfg) (t : Nat) :
    Nat × Trace :=
  match scene.lighting with
  | some l => lcApplySceneLighting cfg l (some cfg.lightFadeDuration) t
  | none => (t, ([] : Trace))

/-- `startScene(sceneId)` (`src/unnamed/part_002` lines 190-227): lookup
(abort if absent); toggle off via `stopScene()` when the scene is already
active; otherwise await `stopScene()` for any other active scene, mark the new
scene active, await `playAmbient` for its ambient audio, and await
`applySceneLighting` with the configured lighting fade. -/
def smStartScene (w : World) (sceneId : String) (t : Nat) : World × Nat × Trace :=
  match w.cfg.getScene sceneId with
  | none => (w, t, [])
  | some scene =>
    if w.activeScene = some sceneId then
      smStopScene w t
    else
      let stopRes :=
        match w.activeScene with
        | some _ => smStopScene w t
        | none => (w, t, ([] : Trace))
      let w1 := { stopRes.1 with activeScene := some sceneId }
      let t1 := stopRes.2.1
      let trMark : Trace := [(t1, Act.setActive (some sceneId))]
      let ambRes := smStartSceneAmbPart w1.cfg w1.audioSt scene t1
      let lightRes := smStartSceneLightPart w1.cfg scene ambRes.2.1
      ({ w1 with audioSt := ambRes.1 }, lightRes.1,
       stopRes.2.2 ++ trMark ++ ambRes.2.2 ++ lightRes.2)

/-- The first half of `executeTrigger` (`src/unnamed/part_002` lines 38-46):
await `stopTriggers()`, then adapt and execute the sequence when one is
configured. -/
def smExecuteTriggerBody (w : World) (trig : TriggerCfg) (t : Nat) :
    TimedAudioSt × Nat × Trace :=
  let (a, t, tr1) := aeStopTriggers w.audioSt w.cfg.audioFadeDuration t
  let (a, t, tr2) :=
    match trig.sequence with
    | some seqn =>
      smExecuteSequence w.cfg a (smAdaptTriggerToAmbient w.cfg w.activeScene seqn) t
    | none => (a, t, ([] : Trace))
  (a, t, tr1 ++ tr2)

/-- The final restore step of `executeTrigger` (`src/unnamed/part_002` lines
48-61): when a scene with a lighting descriptor is active, re-apply it with
the configured lighting fade; when no scene is active, `turnOffAll()`; when a
scene is active but cannot be resolved to a lighting descriptor, nothing. -/
def smRestoreAfterTrigger (w : World) (t : Nat) : Nat × Trace :=
  match w.activeScene with
  | some sid =>
    match w.cfg.getScene sid with
    | some scene =>
      match scene.lighting with
      | some l => lcApplySceneLighting w.cfg l (some w.cfg.lightFadeDuration) t
      | none => (t, ([] : Trace))
    | none => (t, ([] : Trace))
  | none => (t, lcTurnOffAll w.cfg none none t)

/-- `executeTrigger(triggerId)` (`src/unnamed/part_002` lines 28-62): lookup
(abort if absent); run the body (stop trigger sounds, adapt, execute), then
the restore step. -/
def smExecuteTrigger (w : World) (triggerId : String) (t : Nat) :
    World × Nat × Trace :=
  match w.cfg.getTrigger triggerId with
  | none => (w, t, [])
  | some trig =>
    let (a, tb, trB) := smExecuteTriggerBody w trig t
    let (t3, tr3) := smRestoreAfterTrigger w tb
    ({ w with audioSt := a }, t3, trB ++ tr3)

/-- `getActiveScene()`. -/
def smGetActiveScene (w : World) : Option String :=
  w.activeScene

/-! ## Derived definitions used by the statements -/

/-- `k` successive `playNextInPlaylist` calls. -/
def nextIter : Nat → AudioEngineState → AudioEngineState
  | 0, s => s
  | n + 1, s => nextIter n (playNextInPlaylist s)

/-- The ambient brightness/color target `adaptTriggerToAmbient` computes, or
`none` when one of its early-return guards fires (no active scene, unknown
scene, no lighting, no wled lighting). -/
def ambTarget (cfg : Config) (activeScene : Option String) :
    Option (Nat × List Nat) :=
  match activeScene with
  | none => none
  | some sid =>
    match cfg.getScene sid with
    | none => none
    | some scene =>
      match scene.lighting with
      | none => none
      | some sl =>
        match sl.wled with
        | none => none
        | some sw => some (jsOrNat sw.brightness 128, sw.color.getD [128, 128, 128])

/-- The per-event rewrite of `adaptTriggerToAmbient`'s final `map`, with the
early-return guards folded into an optional target. -/
def replaceFade (tgt : Option (Nat × List Nat)) (event : SeqEvent) : SeqEvent :=
  match tgt with
  | none => event
  | some (b, c) =>
    match event.lighting with
    | some l =>
      match l.wled with
      | some w =>
        if w.duration.getD 0 > 0 ∧ event.delay > 0 then
          let w2 := { w with brightness := some b, color := some c }
          { event with lighting := some { l with wled := some w2 } }
        else event
      | none => event
    | none => event

/-! Concrete inputs used by specific claims. -/

/-- A playing music element (claim C9's concrete witness state). -/
def sC9 : AudioEngineState :=
  { elMusic := some { src := "music/x.mp3", paused := false }
    tracksMusic := some "music/x.mp3"
    playlists := { music := some ["music/x.mp3"] } }

/-- Concrete engine state with two ambient layers and a playlist (claim C7). -/
def sC7 : AudioEngineState :=
  { elAmbient := [{ src := "a.mp3", volume := 1/2, paused := false },
                  { src := "b.mp3", volume := 1/2, paused := false }] }

/-- Concrete engine state with a three-track playlist at index 0 (claim C8). -/
def sC8 : AudioEngineState :=
  { playlists := { music := some ["m/1.mp3", "m/2.mp3", "m/3.mp3"] }
    elMusic := some { src := "m/1.mp3", paused := false }
    tracksMusic := some "m/1.mp3" }

/-- Concrete wled intent of the scene used by claim C4's witness. -/
def swC4 : WledIntent := { brightness := some 40, color := some [10, 20, 30] }

/-- Concrete scene lighting used by claim C4's witness. -/
def slC4 : LightingSpec := { wled := some swC4 }

/-- Concrete scene used by claim C4's witness. -/
def sceneC4 : SceneCfg := { name := "cave", lighting := some slC4 }

/-- Concrete wled event intent used by claim C4's witness. -/
def qC4 : WledIntent := { brightness := some 255, color := some [255, 255, 255], duration := some 400 }

/-- Concrete event lighting used by claim C4's witness. -/
def lC4 : LightingSpec := { wled := some qC4 }

/-- Concrete fade-back event used by claim C4's witness. -/
def eC4 : SeqEvent := { delay := 200, lighting := some lC4 }

/-- Concrete config used by claim C4's witness. -/
def cfgC4 : Config := { scenes := [("cave", sceneC4)] }

/-- Config with two distinct scenes with different ambient lighting (claim C5). -/
def cfgC5 : Config :=
  { scenes :=
      [("s1", { name := "one", lighting := some { wled := some { brightness := some 50, color := some [1, 2, 3] } } }),
       ("s2", { name := "two", lighting := some { wled := some { brightness := some 200, color := some [9, 9, 9] } } })] }

/-- A sequence whose only lighting event has a fade duration but zero delay,
so adaptation never rewrites it (claim C5's counterexample input). -/
def seqC5 : List SeqEvent :=
  [{ delay := 0, lighting := some { wled := some { brightness := some 255, duration := some 500 } } }]

/-- A sequence with a genuine fade-back event (positive duration and delay),
which adaptation does rewrite (claim C5's amended statement). -/
def seqC5b : List SeqEvent :=
  [{ delay := 1000, lighting := some { wled := some { brightness := some 255, duration := some 500 } } }]

/-- The "lightning" trigger sequence of the repository's configuration
(spec section 8 scenario; `TESTING` guide step 6): white flash, thunder after
1500 ms, restore after another 1500 ms. -/
def lightningSeq : List SeqEvent :=
  [{ delay := 0, lighting := some { wled := some { brightness := some 255, color := some [255, 255, 255], duration := some 100 } } },
   { delay := 1500, audioCfg := some { trigger := some "sounds/triggers/thunder.mp3" } },
   { delay := 1500, lighting := some { wled := some { restore := true } } }]

/-- Config holding the lightning trigger, WLED enabled (claim C6). -/
def cfgC6 : Config :=
  { triggers := [("lightning", { name := "Lightning Storm", sequence := some lightningSeq })]
    wledEnabled := true }

/-- World with no active scene and idle audio (claim C6). -/
def wC6 : World := { cfg := cfgC6 }

/-- The WLED request the third lightning event actually produces on the
`SceneManager.executeSequence` path: power-on with the Solid effect added by
adaptation, the `restore` flag ignored. -/
def lightningThirdReq : WledState :=
  { power := some true, seg := some { fx := some 0 }, lor := some 2 }

/-- Config with two scenes A and B, each with ambient audio and lighting,
WLED enabled (claim C1). -/
def cfgC1 : Config :=
  { scenes :=
      [("A", { name := "A", audioCfg := some { ambient := some ["a.mp3"] }, lighting := some { wled := some { brightness := some 50, color := some [1, 2, 3] } } }),
       ("B", { name := "B", audioCfg := some { ambient := some ["b.mp3"] }, lighting := some { wled := some { brightness := some 200, color := some [9, 9, 9] } } })]
    wledEnabled := true }

/-- World where scene A is active with its ambient layer playing (claim C1). -/
def wC1 : World :=
  { cfg := cfgC1
    audioSt := { ambient := [{ src := "a.mp3" }] }
    activeScene := some "A" }

/-- Scene lighting used by claim C2's witness. -/
def slC2 : LightingSpec := { wled := some { brightness := some 128, color := some [255, 140, 60] } }

/-- Scene used by claim C2's witness. -/
def sceneC2 : SceneCfg := { name := "Tavern", lighting := some slC2 }

/-- Trigger used by claim C2's witness. -/
def trigC2 : TriggerCfg :=
  { name := "Boom", sequence := some [{ delay := 0, audioCfg := some { trigger := some "boom.mp3" } }] }

/-- Config with one scene (with lighting) and one trigger (claim C2's witness). -/
def cfgC2 : Config :=
  { scenes := [("tavern", sceneC2)]
    triggers := [("boom", trigC2)]
    wledEnabled := true }

/-- World with the tavern scene active (claim C2's witness). -/
def wC2 : World := { cfg := cfgC2, activeScene := some "tavern" }

/-- Scene used by claim C3's witness. -/
def sceneC3 : SceneCfg :=
  { name := "Dungeon", audioCfg := some { ambient := some ["drip.mp3"] }, lighting := some { wled := some { brightness := some 30, color := some [40, 0, 80] } } }

/-- Config with one scene (claim C3's witness). -/
def cfgC3 : Config :=
  { scenes := [("dungeon", sceneC3)]
    wledEnabled := true }

/-- World with the dungeon scene active (claim C3's witness, toggle part). -/
def wC3 : World :=
  { cfg := cfgC3
    audioSt := { ambient := [{ src := "drip.mp3" }] }
    activeScene := some "dungeon" }

/-- World with no active scene (claim C3's witness, double-start part). -/
def wC3b : World := { cfg := cfgC3 }

/-- The wled intent of claim C10's witness scene: brightness 0, no color. -/
def swC10 : WledIntent := { brightness := some 0 }

/-- Scene lighting of claim C10's witness scene. -/
def slC10 : LightingSpec := { wled := some swC10 }

/-- Claim C10's witness scene. -/
def sceneC10 : SceneCfg := { name := "Dark", lighting := some slC10 }

/-- Config for claim C10's witness: the scene's wled lighting sets
brightness 0 and omits the color. -/
def cfgC10 : Config := { scenes := [("dark", sceneC10)] }

/-- The wled intent of claim C10's witness fade-back event. -/
def qC10 : WledIntent := { brightness := some 9, color := some [9, 9, 9], duration := some 300 }

/-- The lighting of claim C10's witness fade-back event. -/
def lC10 : LightingSpec := { wled := some qC10 }

/-- Claim C10's witness fade-back event. -/
def eC10 : SeqEvent := { delay := 700, lighting := some lC10 }

/-- A fade-back sequence for claim C10's witness. -/
def seqC10 : List SeqEvent := [eC10]

/-! ## Shared lemmas about the playlist operations -/

theorem playNext_preserves (s : AudioEngineState) :
    (playNextInPlaylist s).playlists.music = s.playlists.music ∧
    (playNextInPlaylist s).playlists.shuffle = s.playlists.shuffle ∧
    (playNextInPlaylist s).playlists.musicShuffled = s.playlists.musicShuffled := by
  unfold playNextInPlaylist
  cases h : s.playlists.music with
  | none => simp [h]
  | some pl =>
    by_cases hl : pl.length = 0 <;> simp [hl, h]

theorem activeOrdering_playNext (s : AudioEngineState) :
    activeOrdering (playNextInPlaylist s) = activeOrdering s := by
  obtain ⟨h1, h2, h3⟩ := playNext_preserves s
  simp [activeOrdering, h1, h2, h3]

theorem playNext_index (s : AudioEngineState) (pl : List String)
    (hpl : s.playlists.music = some pl) (hne : pl ≠ []) :
    (playNextInPlaylist s).playlists.currentIndex
      = (s.playlists.currentIndex + 1) % (activeOrdering s).length := by
  have hl : ¬ pl.length = 0 := by simpa using hne
  unfold playNextInPlaylist
  rw [hpl]
  simp [hl, activeOrdering, hpl]

theorem nextIter_index : ∀ (k : Nat) (s : AudioEngineState) (pl : List String),
    s.playlists.music = some pl → pl ≠ [] →
    s.playlists.currentIndex < (activeOrdering s).length →
    (nextIter k s).playlists.currentIndex
      = (s.playlists.currentIndex + k) % (activeOrdering s).length := by
  intro k
  induction k with
  | zero =>
    intro s pl hpl hne hlt
    simp [nextIter, Nat.mod_eq_of_lt hlt]
  | succ n ih =>
    intro s pl hpl hne hlt
    have hL : 0 < (activeOrdering s).length := Nat.lt_of_le_of_lt (Nat.zero_le _) hlt
    have hnext := playNext_index s pl hpl hne
    have hpres := playNext_preserves s
    have hao := activeOrdering_playNext s
    have h2 : (playNextInPlaylist s).playlists.music = some pl := by rw [hpres.1, hpl]
    have hlt2 : (playNextInPlaylist s).playlists.currentIndex
        < (activeOrdering (playNextInPlaylist s)).length := by
      rw [hao, hnext]
      exact Nat.mod_lt _ hL
    have hrec := ih (playNextInPlaylist s) pl h2 hne hlt2
    show (nextIter n (playNextInPlaylist s)).playlists.currentIndex = _
    rw [hrec, hao, hnext]
    have hmod : ((s.playlists.currentIndex + 1) % (activeOrdering s).length + n)
          % (activeOrdering s).length
        = (s.playlists.currentIndex + 1 + n) % (activeOrdering s).length :=
      Nat.ModEq.add_right n (Nat.mod_modEq _ _)
    rw [hmod]
    congr 1
    omega

/-! ## Claims C7, C8, C9 -/

/-- C7: for every category and every value outside [0,1], `setVolume` is a
logged no-op leaving the whole engine state (in particular the category's
volume) unchanged; for every value in [0,1] it is stored as the category
volume, applied to every currently tracked element of the category, and used
as the base volume of subsequently created elements of that category. -/
theorem setVolume_spec (s : AudioEngineState) (cat : ACat) (v : Rat) :
    ((v < 0 ∨ v > 1) →
      (setVolume s cat v).1 = s ∧ (setVolume s cat v).2 ≠ []) ∧
    (0 ≤ v → v ≤ 1 →
      getVolume (setVolume s cat v).1 cat = v ∧
      (∀ a ∈ catElems (setVolume s cat v).1 cat, a.volume = v) ∧
      (createAudioElement (setVolume s cat v).1 cat none).volume = v) := by
  constructor
  · intro h
    simp [setVolume, h]
  · intro h0 h1
    have hcond : ¬(v < 0 ∨ v > 1) := by
      push_neg
      exact ⟨h0, h1⟩
    cases cat <;>
      cases hm : s.elMusic <;>
        simp [setVolume, hcond, getVolume, VolumesSt.get, VolumesSt.set, catElems,
              createAudioElement, min_eq_right h1, hm]

/-- C7 witness: rejection at 2 leaves the state untouched; 3/4 is applied to
the playing ambient layers and to a freshly created ambient element. -/
theorem setVolume_spec_witness :
    ((setVolume sC7 ACat.ambient 2).1 = sC7 ∧ (setVolume sC7 ACat.ambient 2).2 ≠ []) ∧
    (getVolume (setVolume sC7 ACat.ambient (3/4)).1 ACat.ambient = 3/4 ∧
     (∀ a ∈ catElems (setVolume sC7 ACat.ambient (3/4)).1 ACat.ambient, a.volume = 3/4) ∧
     (createAudioElement (setVolume sC7 ACat.ambient (3/4)).1 ACat.ambient none).volume = 3/4) :=
  ⟨(setVolume_spec sC7 ACat.ambient 2).1 (Or.inr (by norm_num)),
   (setVolume_spec sC7 ACat.ambient (3/4)).2 (by norm_num) (by norm_num)⟩

/-- C8: with a playlist of N tracks loaded (canonical and active orderings
both of length N) and the current index at 0, `playNextInPlaylist` N times
returns the index to 0, and one `skipPrevious` moves it to N-1. -/
theorem playlist_wraparound (s : AudioEngineState) (N : Nat) (pl : List String)
    (hpl : s.playlists.music = some pl)
    (hplN : pl.length = N)
    (hact : (activeOrdering s).length = N)
    (hN : 0 < N)
    (hidx : s.playlists.currentIndex = 0) :
    (nextIter N s).playlists.currentIndex = 0 ∧
    (skipPrevious s).playlists.currentIndex = N - 1 := by
  have hne : pl ≠ [] := by
    intro h
    rw [h] at hplN
    simp at hplN
    omega
  constructor
  · have h := nextIter_index N s pl hpl hne (by rw [hidx, hact]; exact hN)
    rw [h, hidx, hact]
    simp
  · have hl : ¬ pl.length = 0 := by omega
    have hL : (if s.playlists.shuffle then s.playlists.musicShuffled.getD [] else pl).length = N := by
      have h2 := hact
      simpa [activeOrdering, hpl] using h2
    unfold skipPrevious
    rw [hpl]
    simp only [hl, if_false, hidx, hL]
    simp [Nat.mod_eq_of_lt (show N - 1 < N by omega)]

/-- C8 witness: three tracks, next three times back to 0, previous to 2. -/
theorem playlist_wraparound_witness :
    (nextIter 3 sC8).playlists.currentIndex = 0 ∧
    (skipPrevious sC8).playlists.currentIndex = 2 :=
  playlist_wraparound sC8 3 ["m/1.mp3", "m/2.mp3", "m/3.mp3"] rfl rfl rfl
    (by decide) rfl

/-- C9: `playMusic` with an empty track list stops the current music (element
paused, tracked path cleared), records the empty playlist, logs an error,
creates no new element, and leaves `getCurrentTrack()` returning null. -/
theorem playMusic_empty_spec (s : AudioEngineState) (loop shuffle : Bool)
    (oracle : List String → List String) (hOr : oracle [] = []) :
    (playMusicList s [] loop shuffle oracle).1.tracksMusic = none ∧
    (playMusicList s [] loop shuffle oracle).1.playlists.music = some [] ∧
    (playMusicList s [] loop shuffle oracle).1.elMusic
      = s.elMusic.map (fun a => { a with paused := true, currentTime := 0 }) ∧
    (playMusicList s [] loop shuffle oracle).2 = ["No tracks in playlist"] ∧
    getCurrentTrack (playMusicList s [] loop shuffle oracle).1 = none := by
  cases shuffle <;> cases hm : s.elMusic <;>
    simp [playMusicList, stopMusicState, hOr, getCurrentTrack, hm]

/-- C9 witness: a state with one playing track, shuffled empty-list request. -/
theorem playMusic_empty_witness :
    (playMusicList sC9 [] true true id).1.tracksMusic = none ∧
    (playMusicList sC9 [] true true id).1.playlists.music = some [] ∧
    (playMusicList sC9 [] true true id).1.elMusic
      = sC9.elMusic.map (fun a => { a with paused := true, currentTime := 0 }) ∧
    (playMusicList sC9 [] true true id).2 = ["No tracks in playlist"] ∧
    getCurrentTrack (playMusicList sC9 [] true true id).1 = none :=
  playMusic_empty_spec sC9 true true id rfl

/-! ## Shared lemmas about sequence adaptation -/

theorem adapt_eq_map (cfg : Config) (active : Option String) (seqn : List SeqEvent) :
    smAdaptTriggerToAmbient cfg active seqn
      = seqn.map (fun e => replaceFade (ambTarget cfg active) (addSolid e)) := by
  unfold smAdaptTriggerToAmbient ambTarget
  cases active with
  | none => rfl
  | some sid =>
    cases hs : cfg.getScene sid with
    | none =>
      simp only [hs]
      rfl
    | some scene =>
      cases hl : scene.lighting with
      | none =>
        simp only [hs, hl]
        rfl
      | some sl =>
        cases hw : sl.wled with
        | none =>
          simp only [hs, hl, hw]
          rfl
        | some sw =>
          simp only [hs, hl, hw]
          rw [List.map_map]
          rfl

theorem adapt_get_eq (cfg : Config) (active : Option String) (seqn : List SeqEvent)
    (i : Nat) (e : SeqEvent) (he : seqn.get? i = some e) :
    (smAdaptTriggerToAmbient cfg active seqn).get? i
      = some (replaceFade (ambTarget cfg active) (addSolid e)) := by
  rw [adapt_eq_map, List.get?_map, he]
  rfl

theorem replaceFade_addSolid_noLighting (tgt : Option (Nat × List Nat))
    (e : SeqEvent) (hl : e.lighting = none) :
    replaceFade tgt (addSolid e) = e := by
  cases tgt with
  | none => simp [replaceFade, addSolid, hl]
  | some bc =>
    obtain ⟨bb, cc⟩ := bc
    simp [replaceFade, addSolid, hl]

theorem replaceFade_addSolid_noWled (tgt : Option (Nat × List Nat))
    (e : SeqEvent) (l : LightingSpec) (hl : e.lighting = some l)
    (hw : l.wled = none) :
    replaceFade tgt (addSolid e) = e := by
  cases tgt with
  | none => simp [replaceFade, addSolid, hl, hw]
  | some bc =>
    obtain ⟨bb, cc⟩ := bc
    simp [replaceFade, addSolid, hl, hw]

theorem replaceFade_addSolid_solidOnly (tgt : Option (Nat × List Nat))
    (e : SeqEvent) (l : LightingSpec) (q : WledIntent)
    (hl : e.lighting = some l) (hq : l.wled = some q)
    (hguard : tgt = none ∨ ¬(q.duration.getD 0 > 0 ∧ e.delay > 0)) :
    replaceFade tgt (addSolid e)
      = { e with lighting := some { l with wled := some { q with effect := some "Solid" } } } := by
  cases tgt with
  | none => simp [replaceFade, addSolid, hl, hq]
  | some bc =>
    obtain ⟨bb, cc⟩ := bc
    have hcond : ¬(q.duration.getD 0 > 0 ∧ e.delay > 0) := by
      rcases hguard with h | h
      · cases h
      · exact h
    simp [replaceFade, addSolid, hl, hq, hcond]

theorem replaceFade_addSolid_replace (bb : Nat) (cc : List Nat)
    (e : SeqEvent) (l : LightingSpec) (q : WledIntent)
    (hl : e.lighting = some l) (hq : l.wled = some q)
    (hcond : q.duration.getD 0 > 0 ∧ e.delay > 0) :
    replaceFade (some (bb, cc)) (addSolid e)
      = { e with lighting := some { l with wled := some { q with effect := some "Solid", brightness := some bb, color := some cc } } } := by
  simp [replaceFade, addSolid, hl, hq, hcond]

/-! ## Claims C4, C10, C5 -/

/-- C4: `adaptTriggerToAmbient` sets the effect to "Solid" on every event of
the sequence that carries a wled lighting sub-object; when a scene whose
lighting includes a wled intent is active, every event with positive wled
duration and positive delay additionally has brightness and color replaced by
the scene's ambient values (truthy defaults 128 and [128,128,128]); all other
event fields are returned unchanged. -/
theorem adaptTrigger_spec (cfg : Config) (active : Option String)
    (seqn : List SeqEvent) :
    (∀ i e l q, seqn.get? i = some e → e.lighting = some l → l.wled = some q →
      ∃ e2 l2 q2, (smAdaptTriggerToAmbient cfg active seqn).get? i = some e2 ∧
        e2.lighting = some l2 ∧ l2.wled = some q2 ∧ q2.effect = some "Solid") ∧
    (∀ sid scene sl sw, active = some sid → cfg.getScene sid = some scene →
      scene.lighting = some sl → sl.wled = some sw →
      ∀ i e l q, seqn.get? i = some e → e.lighting = some l → l.wled = some q →
        q.duration.getD 0 > 0 → e.delay > 0 →
        ∃ e2 l2 q2, (smAdaptTriggerToAmbient cfg active seqn).get? i = some e2 ∧
          e2.lighting = some l2 ∧ l2.wled = some q2 ∧
          q2.brightness = some (jsOrNat sw.brightness 128) ∧
          q2.color = some (sw.color.getD [128, 128, 128])) ∧
    (∀ i e, seqn.get? i = some e →
      ∃ e2, (smAdaptTriggerToAmbient cfg active seqn).get? i = some e2 ∧
        e2.delay = e.delay ∧ e2.audioCfg = e.audioCfg ∧
        (e.lighting = none → e2 = e) ∧
        (∀ l, e.lighting = some l → ∃ l2, e2.lighting = some l2 ∧
          l2.homeAssistant = l.homeAssistant ∧
          (l.wled = none → l2 = l) ∧
          (∀ q, l.wled = some q → ∃ q2, l2.wled = some q2 ∧
            q2.speed = q.speed ∧ q2.intensity = q.intensity ∧
            q2.duration = q.duration ∧ q2.restore = q.restore ∧
            ((ambTarget cfg active = none ∨ ¬(q.duration.getD 0 > 0 ∧ e.delay > 0)) →
              q2.brightness = q.brightness ∧ q2.color = q.color)))) := by
  refine ⟨?_, ?_, ?_⟩
  · intro i e l q he hl hq
    rw [adapt_get_eq cfg active seqn i e he]
    rcases ht : ambTarget cfg active with _ | ⟨bb, cc⟩
    · rw [replaceFade_addSolid_solidOnly none e l q hl hq (Or.inl rfl)]
      exact ⟨_, _, _, rfl, rfl, rfl, rfl⟩
    · by_cases hcond : q.duration.getD 0 > 0 ∧ e.delay > 0
      · rw [replaceFade_addSolid_replace bb cc e l q hl hq hcond]
        exact ⟨_, _, _, rfl, rfl, rfl, rfl⟩
      · rw [replaceFade_addSolid_solidOnly (some (bb, cc)) e l q hl hq (Or.inr hcond)]
        exact ⟨_, _, _, rfl, rfl, rfl, rfl⟩
  · intro sid scene sl sw hsid hscene hsl hsw i e l q he hl hq hd hdel
    rw [adapt_get_eq cfg active seqn i e he]
    have ht : ambTarget cfg active
        = some (jsOrNat sw.brightness 128, sw.color.getD [128, 128, 128]) := by
      rw [hsid]
      simp [ambTarget, hscene, hsl, hsw]
    rw [ht, replaceFade_addSolid_replace _ _ e l q hl hq ⟨hd, hdel⟩]
    exact ⟨_, _, _, rfl, rfl, rfl, rfl, rfl⟩
  · intro i e he
    rw [adapt_get_eq cfg active seqn i e he]
    rcases hl : e.lighting with _ | l
    · rw [replaceFade_addSolid_noLighting (ambTarget cfg active) e hl]
      refine ⟨e, rfl, rfl, rfl, fun _ => rfl, ?_⟩
      intro l0 hl0
      exact Option.noConfusion hl0
    · rcases hq : l.wled with _ | q
      · rw [replaceFade_addSolid_noWled (ambTarget cfg active) e l hl hq]
        refine ⟨e, rfl, rfl, rfl, fun hc => Option.noConfusion hc, ?_⟩
        intro l0 hl0
        obtain rfl := Option.some.inj hl0
        refine ⟨l, hl, rfl, fun _ => rfl, ?_⟩
        intro q0 hq0
        rw [hq] at hq0
        exact Option.noConfusion hq0
      · by_cases hguard : ambTarget cfg active = none ∨ ¬(q.duration.getD 0 > 0 ∧ e.delay > 0)
        · rw [replaceFade_addSolid_solidOnly (ambTarget cfg active) e l q hl hq hguard]
          refine ⟨_, rfl, rfl, rfl, fun hc => Option.noConfusion hc, ?_⟩
          intro l0 hl0
          obtain rfl := Option.some.inj hl0
          refine ⟨_, rfl, rfl, ?_, ?_⟩
          · intro hc
            rw [hq] at hc
            exact Option.noConfusion hc
          · intro q0 hq0
            rw [hq] at hq0
            obtain rfl := Option.some.inj hq0
            exact ⟨_, rfl, rfl, rfl, rfl, rfl, fun _ => ⟨rfl, rfl⟩⟩
        · push_neg at hguard
          obtain ⟨htne, hcond⟩ := hguard
          rcases ht : ambTarget cfg active with _ | ⟨bb, cc⟩
          · exact absurd ht htne
          · rw [replaceFade_addSolid_replace bb cc e l q hl hq hcond]
            refine ⟨_, rfl, rfl, rfl, fun hc => Option.noConfusion hc, ?_⟩
            intro l0 hl0
            obtain rfl := Option.some.inj hl0
            refine ⟨_, rfl, rfl, ?_, ?_⟩
            · intro hc
              rw [hq] at hc
              exact Option.noConfusion hc
            · intro q0 hq0
              rw [hq] at hq0
              obtain rfl := Option.some.inj hq0
              refine ⟨_, rfl, rfl, rfl, rfl, rfl, ?_⟩
              intro hpre
              rcases hpre with h | h
              · exact Option.noConfusion h
              · exact absurd hcond h

/-- C4 witness: the cave scene's brightness/color replace the fade-back
event's values. -/
theorem adaptTrigger_spec_witness :
    ∃ e2 l2 q2, (smAdaptTriggerToAmbient cfgC4 (some "cave") [eC4]).get? 0 = some e2 ∧
      e2.lighting = some l2 ∧ l2.wled = some q2 ∧
      q2.brightness = some (jsOrNat swC4.brightness 128) ∧
      q2.color = some (swC4.color.getD [128, 128, 128]) :=
  (adaptTrigger_spec cfgC4 (some "cave") [eC4]).2.1 "cave" sceneC4 slC4 swC4 rfl
    (by decide) rfl rfl 0 eC4 lC4 qC4 rfl rfl rfl (by decide) (by decide)

/-- C10: `adaptTriggerToAmbient` selects its defaults with a truthiness check:
when the active scene's wled lighting has brightness 0 (and omits the color),
the rewritten fade-back events get brightness 128 and color [128,128,128],
not the scene's configured 0. -/
theorem adapt_truthy_defaults (cfg : Config) (sid : String) (scene : SceneCfg)
    (sl : LightingSpec) (sw : WledIntent) (seqn : List SeqEvent)
    (hscene : cfg.getScene sid = some scene) (hsl : scene.lighting = some sl)
    (hsw : sl.wled = some sw) (hb : sw.brightness = some 0) (hc : sw.color = none) :
    ∀ i e l q, seqn.get? i = some e → e.lighting = some l → l.wled = some q →
      q.duration.getD 0 > 0 → e.delay > 0 →
      ∃ e2 l2 q2, (smAdaptTriggerToAmbient cfg (some sid) seqn).get? i = some e2 ∧
        e2.lighting = some l2 ∧ l2.wled = some q2 ∧
        q2.brightness = some 128 ∧ q2.color = some [128, 128, 128] := by
  intro i e l q he hl hq hd hdel
  rw [adapt_get_eq cfg (some sid) seqn i e he]
  have ht : ambTarget cfg (some sid) = some (128, [128, 128, 128]) := by
    simp [ambTarget, hscene, hsl, hsw, hb, hc, jsOrNat]
  rw [ht, replaceFade_addSolid_replace _ _ e l q hl hq ⟨hd, hdel⟩]
  exact ⟨_, _, _, rfl, rfl, rfl, rfl, rfl⟩

/-- C10 witness: the dark scene (brightness 0, no color) yields 128 and
[128,128,128] on the adapted fade-back event. -/
theorem adapt_truthy_defaults_witness :
    ∃ e2 l2 q2, (smAdaptTriggerToAmbient cfgC10 (some "dark") seqC10).get? 0 = some e2 ∧
      e2.lighting = some l2 ∧ l2.wled = some q2 ∧
      q2.brightness = some 128 ∧ q2.color = some [128, 128, 128] :=
  adapt_truthy_defaults cfgC10 "dark" sceneC10 slC10 swC10 seqC10
    (by decide) rfl rfl rfl rfl 0 eC10 lC10 qC10 rfl rfl rfl (by decide) (by decide)

/-- C5 counterexample: for the distinct configured scenes s1 and s2 (with
different ambient lighting) and the one-event sequence whose lighting event
has a fade duration but delay 0, two `adaptTriggerToAmbient` calls under the
two different active scenes produce the *same* adapted output, so "two
successive calls under different active scenes produce different adapted
outputs" fails as a universal statement. -/
theorem adapt_different_scenes_counterexample :
    "s1" ≠ "s2" ∧
    cfgC5.getScene "s1" ≠ cfgC5.getScene "s2" ∧
    smAdaptTriggerToAmbient cfgC5 (some "s1") seqC5
      = smAdaptTriggerToAmbient cfgC5 (some "s2") seqC5 := by
  decide

/-- C5 (amended): `executeTrigger` (and the adaptation it performs) never
mutates the stored configuration — the trigger table, hence the stored
sequence, is unchanged by a run — and two successive calls under different
active scenes *can* produce different adapted outputs from the same unchanged
source (they do on a sequence with a positive-duration, positive-delay fade
event when the scenes' ambient values differ). -/
theorem adapt_no_mutation_spec :
    (∀ (w : World) (triggerId : String) (t : Nat),
      (smExecuteTrigger w triggerId t).1.cfg = w.cfg ∧
      (smExecuteTrigger w triggerId t).1.cfg.getTrigger triggerId
        = w.cfg.getTrigger triggerId) ∧
    smAdaptTriggerToAmbient cfgC5 (some "s1") seqC5b
      ≠ smAdaptTriggerToAmbient cfgC5 (some "s2") seqC5b := by
  constructor
  · intro w triggerId t
    have hcfg : (smExecuteTrigger w triggerId t).1.cfg = w.cfg := by
      unfold smExecuteTrigger
      cases ht : w.cfg.getTrigger triggerId with
      | none => rfl
      | some trig => cases trig.sequence <;> cases w.activeScene <;> rfl
    exact ⟨hcfg, by rw [hcfg]⟩
  · decide

/-! ## Claims C2, C3 -/

theorem smExecuteTrigger_trace (w : World) (triggerId : String) (trig : TriggerCfg)
    (t : Nat) (ht : w.cfg.getTrigger triggerId = some trig) :
    (smExecuteTrigger w triggerId t).2.2
      = (smExecuteTriggerBody w trig t).2.2
        ++ (smRestoreAfterTrigger w (smExecuteTriggerBody w trig t).2.1).2 := by
  unfold smExecuteTrigger
  rw [ht]

/-- C2: after `executeTrigger` finishes a found trigger's sequence it performs
an explicit final restore step: when a scene is active whose lighting
descriptor resolves, the emitted trace ends with exactly the
`applySceneLighting` application of that descriptor (with the configured
lighting fade); when no scene is active, it ends with exactly the
`turnOffAll()` requests. -/
theorem executeTrigger_restore_spec (w : World) (triggerId : String)
    (trig : TriggerCfg) (t : Nat) (ht : w.cfg.getTrigger triggerId = some trig) :
    (∀ sid scene l, w.activeScene = some sid → w.cfg.getScene sid = some scene →
      scene.lighting = some l →
      ∃ pre t2, (smExecuteTrigger w triggerId t).2.2
        = pre ++ (lcApplySceneLighting w.cfg l (some w.cfg.lightFadeDuration) t2).2) ∧
    (w.activeScene = none →
      ∃ pre t2, (smExecuteTrigger w triggerId t).2.2
        = pre ++ lcTurnOffAll w.cfg none none t2) := by
  constructor
  · intro sid scene l hact hscene hl
    refine ⟨(smExecuteTriggerBody w trig t).2.2, (smExecuteTriggerBody w trig t).2.1, ?_⟩
    rw [smExecuteTrigger_trace w triggerId trig t ht]
    congr 1
    simp [smRestoreAfterTrigger, hact, hscene, hl]
  · intro hact
    refine ⟨(smExecuteTriggerBody w trig t).2.2, (smExecuteTriggerBody w trig t).2.1, ?_⟩
    rw [smExecuteTrigger_trace w triggerId trig t ht]
    congr 1
    simp [smRestoreAfterTrigger, hact]

/-- C2 witness: with the tavern scene active, a run of the boom trigger ends
with the tavern lighting re-application. -/
theorem executeTrigger_restore_witness :
    ∃ pre t2, (smExecuteTrigger wC2 "boom" 0).2.2
      = pre ++ (lcApplySceneLighting wC2.cfg slC2 (some wC2.cfg.lightFadeDuration) t2).2 :=
  (executeTrigger_restore_spec wC2 "boom" trigC2 0 (by decide)).1
    "tavern" sceneC2 slC2 rfl (by decide) rfl

theorem smStopScene_cfg (w : World) (t : Nat) : (smStopScene w t).1.cfg = w.cfg := by
  unfold smStopScene
  cases w.activeScene <;> rfl

theorem smStopScene_active_none (w : World) (t : Nat) :
    (smStopScene w t).1.activeScene = none := by
  unfold smStopScene
  cases h : w.activeScene with
  | none => exact h
  | some x => rfl

theorem smStartScene_cfg (w : World) (sceneId : String) (t : Nat) :
    (smStartScene w sceneId t).1.cfg = w.cfg := by
  unfold smStartScene
  cases hs : w.cfg.getScene sceneId with
  | none => rfl
  | some scene =>
    by_cases hact : w.activeScene = some sceneId
    · simp only [if_pos hact]
      exact smStopScene_cfg w t
    · simp only [if_neg hact]
      cases ha : w.activeScene with
      | none => rfl
      | some x => exact smStopScene_cfg w t

theorem startScene_when_active_eq_stop (w : World) (sceneId : String)
    (scene : SceneCfg) (t : Nat) (hs : w.cfg.getScene sceneId = some scene)
    (hact : w.activeScene = some sceneId) :
    smStartScene w sceneId t = smStopScene w t := by
  simp only [smStartScene, hs]
  rw [if_pos hact]

theorem smStartScene_active (w : World) (sceneId : String) (scene : SceneCfg)
    (t : Nat) (hs : w.cfg.getScene sceneId = some scene)
    (hne : w.activeScene ≠ some sceneId) :
    (smStartScene w sceneId t).1.activeScene = some sceneId := by
  simp only [smStartScene, hs]
  rw [if_neg hne]

/-- C3: `startScene(A)` when A is already active is exactly `stopScene()`
(ambient fade-out started, lights off, active slot cleared); consequently,
starting from a state where A is not active, `startScene(A)` twice in a row
ends with no active scene. -/
theorem startScene_toggle_spec (w : World) (sceneId : String) (scene : SceneCfg)
    (t : Nat) (hs : w.cfg.getScene sceneId = some scene) :
    (w.activeScene = some sceneId → smStartScene w sceneId t = smStopScene w t) ∧
    (w.activeScene ≠ some sceneId →
      (smStartScene (smStartScene w sceneId t).1 sceneId
        (smStartScene w sceneId t).2.1).1.activeScene = none) := by
  constructor
  · intro hact
    exact startScene_when_active_eq_stop w sceneId scene t hs hact
  · intro hne
    have h1 : (smStartScene w sceneId t).1.activeScene = some sceneId :=
      smStartScene_active w sceneId scene t hs hne
    have hcfg : (smStartScene w sceneId t).1.cfg = w.cfg := smStartScene_cfg w sceneId t
    have hs2 : (smStartScene w sceneId t).1.cfg.getScene sceneId = some scene := by
      rw [hcfg]
      exact hs
    rw [startScene_when_active_eq_stop (smStartScene w sceneId t).1 sceneId scene
      (smStartScene w sceneId t).2.1 hs2 h1]
    exact smStopScene_active_none (smStartScene w sceneId t).1 (smStartScene w sceneId t).2.1

/-- C3 witness: with the dungeon scene active, starting it again equals
`stopScene()`; from an idle world, starting it twice ends with no scene. -/
theorem startScene_toggle_witness :
    smStartScene wC3 "dungeon" 0 = smStopScene wC3 0 ∧
    (smStartScene (smStartScene wC3b "dungeon" 0).1 "dungeon"
      (smStartScene wC3b "dungeon" 0).2.1).1.activeScene = none :=
  ⟨(startScene_toggle_spec wC3 "dungeon" sceneC3 0 (by decide)).1 rfl,
   (startScene_toggle_spec wC3b "dungeon" sceneC3 0 (by decide)).2 (by decide)⟩

/-! ## Claim C6 -/

/-- C6: a full run of `executeTrigger("lightning")` with no active scene. The
`restore: true` intent of the third event (relative delay 1500, firing at
3000 ms) is *not* routed to `restoreWLEDState` — `SceneManager.executeSequence`
never consults the `restore` flag — so that event sends a state built from the
adapted intent: power **on** with the Solid effect (`lightningThirdReq`),
instead of the power-off request `restoreWLEDState` would send (third
conjunct). The lights only go off at 3000 ms because the post-sequence
no-active-scene cleanup calls `turnOffAll()` (the fourth trace entry). -/
theorem lightning_restore_ignored :
    (smExecuteTrigger wC6 "lightning" 0).2.2 =
      [(0, Act.wledReq { power := some true, bri := some 255, seg := some { col := some [[255, 255, 255]], fx := some 0 }, transition := some 1, lor := some 2 }),
       (1500, Act.trigPlay "sounds/triggers/thunder.mp3"),
       (3000, Act.wledReq lightningThirdReq),
       (3000, Act.wledReq { power := some false, lor := some 2 })] ∧
    lightningThirdReq.power = some true ∧
    lcRestoreWLEDState cfgC6 3000 = [(3000, Act.wledReq { power := some false, lor := some 2 })] ∧
    (smExecuteTrigger wC6 "lightning" 0).2.1 = 3000 := by
  decide

/-! ## Claim C1 -/

theorem audioFadeDuration_pos (c : Config) : 0 < c.audioFadeDuration := by
  unfold Config.audioFadeDuration
  cases h : c.fadeDuration with
  | none => simp
  | some d => cases d <;> simp

theorem mem_lcSetWLEDState (cfg : Config) (st : WledState) (o : Option Bool)
    (t : Nat) (p : Nat × Act) (hp : p ∈ lcSetWLEDState cfg st o t) :
    ∃ st2, p.2 = Act.wledReq st2 := by
  unfold lcSetWLEDState at hp
  split at hp
  · have heq := List.mem_singleton.mp hp
    subst heq
    exact ⟨_, rfl⟩
  · cases hp

theorem mem_lcApplyWLEDConfig (cfg : Config) (c : WledIntent) (t : Nat)
    (p : Nat × Act) (hp : p ∈ lcApplyWLEDConfig cfg c t) :
    ∃ st2, p.2 = Act.wledReq st2 := by
  unfold lcApplyWLEDConfig at hp
  split at hp
  · exact mem_lcSetWLEDState _ _ _ _ _ hp
  · cases hp

theorem mem_lcSendHACommand (cfg : Config) (h : HAField) (t : Nat)
    (p : Nat × Act) (hp : p ∈ lcSendHACommand cfg h t) :
    ∃ h2, p.2 = Act.haReq h2 := by
  unfold lcSendHACommand at hp
  split at hp
  · have heq := List.mem_singleton.mp hp
    subst heq
    exact ⟨_, rfl⟩
  · cases hp

theorem mem_haSeq (cfg : Config) (cmds : List String) :
    ∀ (t : Nat) (p : Nat × Act), p ∈ (haSeq cfg cmds t).2 →
    ∃ h2, p.2 = Act.haReq h2 := by
  induction cmds with
  | nil =>
    intro t p hp
    cases hp
  | cons c rest ih =>
    intro t p hp
    unfold haSeq at hp
    rcases List.mem_append.mp hp with h | h
    · exact mem_lcSendHACommand _ _ _ _ h
    · exact ih _ _ h

theorem mem_lcApplySceneLighting (cfg : Config) (l : LightingSpec)
    (f : Option Nat) (t : Nat) (p : Nat × Act)
    (hp : p ∈ (lcApplySceneLighting cfg l f t).2) :
    (∃ st2, p.2 = Act.wledReq st2) ∨ ∃ h2, p.2 = Act.haReq h2 := by
  unfold lcApplySceneLighting at hp
  rcases hha : l.homeAssistant with _ | hf
  · rw [hha] at hp
    rcases hw : l.wled with _ | wi
    · rw [hw] at hp
      cases hp
    · rw [hw] at hp
      exact Or.inl (mem_lcApplyWLEDConfig _ _ _ _ hp)
  · cases hf with
    | single c =>
      rw [hha] at hp
      rcases List.mem_append.mp hp with h | h
      · rcases hw : l.wled with _ | wi
        · rw [hw] at h
          cases h
        · rw [hw] at h
          exact Or.inl (mem_lcApplyWLEDConfig _ _ _ _ h)
      · exact Or.inr (mem_lcSendHACommand _ _ _ _ h)
    | multiple cmds =>
      rw [hha] at hp
      rcases List.mem_append.mp hp with h | h
      · rcases hw : l.wled with _ | wi
        · rw [hw] at h
          cases h
        · rw [hw] at h
          exact Or.inl (mem_lcApplyWLEDConfig _ _ _ _ h)
      · exact Or.inr (mem_haSeq _ _ _ _ h)

theorem mem_lcTurnOffAll (cfg : Config) (r : Option Bool) (f : Option Nat)
    (t : Nat) (p : Nat × Act) (hp : p ∈ lcTurnOffAll cfg r f t) :
    ∃ st2, p.2 = Act.wledReq st2 := by
  unfold lcTurnOffAll at hp
  split at hp
  · dsimp only [] at hp
    repeat' split at hp
    all_goals
      first
        | (rcases List.mem_append.mp hp with h | h
           · exact mem_lcSetWLEDState _ _ _ _ _ h
           · have heq := List.mem_singleton.mp h
             subst heq
             exact ⟨_, rfl⟩)
        | exact mem_lcSetWLEDState _ _ _ _ _ hp
  · cases hp

theorem mem_fadeTrace (mk mkP : String → Act) (ls : List AmbLayer) (t D : Nat)
    (p : Nat × Act) (hp : p ∈ fadeTrace mk mkP ls t D) :
    (∃ l, l ∈ ls ∧ p = (t, mk l.src)) ∨ (∃ l, l ∈ ls ∧ p = (t + D, mkP l.src)) := by
  unfold fadeTrace at hp
  rcases List.mem_append.mp hp with h | h
  · obtain ⟨l, hl, heq⟩ := List.mem_map.mp h
    exact Or.inl ⟨l, (List.mem_filter.mp hl).1, heq.symm⟩
  · obtain ⟨l, hl, heq⟩ := List.mem_map.mp h
    exact Or.inr ⟨l, (List.mem_filter.mp hl).1, heq.symm⟩

theorem layersResolveAt_unpaused (ls : List AmbLayer) (t D : Nat) (hne : ls ≠ [])
    (hq : ∀ l ∈ ls, l.pauseT = none) : layersResolveAt ls t D = t + D := by
  unfold layersResolveAt
  rw [if_neg]
  intro hall
  obtain ⟨l, hl⟩ := List.exists_mem_of_ne_nil ls hne
  have h2 := List.all_eq_true.mp hall l hl
  simp [AmbLayer.pausedBy, hq l hl] at h2

theorem fadeLayer_fresh (t D : Nat) (l : AmbLayer) (h : l.pauseT = none) :
    fadeLayer t D l = { l with pauseT := some (t + D) } := by
  simp [fadeLayer, AmbLayer.pausedBy, h]

theorem layersResolveAt_faded (ls : List AmbLayer) (t D : Nat) (hD : 0 < D)
    (hne : ls ≠ []) (hq : ∀ l ∈ ls, l.pauseT = none) :
    layersResolveAt (ls.map (fadeLayer t D)) t D = t + D := by
  unfold layersResolveAt
  rw [if_neg]
  intro hall
  obtain ⟨l, hl⟩ := List.exists_mem_of_ne_nil ls hne
  have hmem : fadeLayer t D l ∈ ls.map (fadeLayer t D) := List.mem_map.mpr ⟨l, hl, rfl⟩
  have h2 := List.all_eq_true.mp hall _ hmem
  rw [fadeLayer_fresh t D l (hq l hl)] at h2
  simp [AmbLayer.pausedBy] at h2
  omega

theorem effAmbient_of_clear_none (a0 : TimedAudioSt) (t : Nat)
    (hc : a0.ambientClearAt = none) : effAmbient a0 t = a0.ambient := by
  simp [effAmbient, hc]

theorem effAmbient_after_stop (a0 : TimedAudioSt) (D t : Nat) (hD : 0 < D)
    (hc : a0.ambientClearAt = none) (hq : ∀ l ∈ a0.ambient, l.pauseT = none) :
    effAmbient (aeStopAmbientNoAwait a0 D t).1 t = a0.ambient.map (fadeLayer t D) := by
  unfold aeStopAmbientNoAwait effAmbient
  dsimp only []
  simp only [hc]
  by_cases h0 : a0.ambient = []
  · rw [h0]
    simp [layersResolveAt]
  · rw [layersResolveAt_unpaused _ _ _ h0 hq, if_neg (by omega)]

theorem resolve_after_stop (a0 : TimedAudioSt) (D t : Nat) (hD : 0 < D)
    (hc : a0.ambientClearAt = none) (hq : ∀ l ∈ a0.ambient, l.pauseT = none)
    (h0 : a0.ambient ≠ []) :
    (aeStopAmbient (aeStopAmbientNoAwait a0 D t).1 D t).2.1 = t + D := by
  unfold aeStopAmbient
  dsimp only []
  rw [effAmbient_after_stop a0 D t hD hc hq]
  exact layersResolveAt_faded _ _ _ hD h0 hq

theorem noawait_pause_play (a0 : TimedAudioSt) (D t : Nat)
    (hc : a0.ambientClearAt = none) (p : Nat × Act)
    (hp : p ∈ (aeStopAmbientNoAwait a0 D t).2) :
    (∀ s, p.2 = Act.ambPause s → p.1 = t + D ∧ a0.ambient ≠ []) ∧
    (∀ s, p.2 ≠ Act.ambPlay s) := by
  unfold aeStopAmbientNoAwait at hp
  dsimp only [] at hp
  rw [effAmbient_of_clear_none a0 t hc] at hp
  rcases mem_fadeTrace _ _ _ _ _ _ hp with ⟨l, hl, heq⟩ | ⟨l, hl, heq⟩
  · subst heq
    exact ⟨fun s hs => Act.noConfusion hs, fun s hs => Act.noConfusion hs⟩
  · subst heq
    exact ⟨fun s hs => ⟨rfl, List.ne_nil_of_mem hl⟩, fun s hs => Act.noConfusion hs⟩

theorem ambPart_pause_play (cfg : Config) (a0 : TimedAudioSt) (scene : SceneCfg)
    (t : Nat) (hc : a0.ambientClearAt = none)
    (hq : ∀ l ∈ a0.ambient, l.pauseT = none) (p : Nat × Act)
    (hp : p ∈ (smStartSceneAmbPart cfg
      (aeStopAmbientNoAwait a0 cfg.audioFadeDuration t).1 scene t).2.2) :
    (∀ s, p.2 = Act.ambPause s → p.1 = t + cfg.audioFadeDuration ∧ a0.ambient ≠ []) ∧
    (∀ s, p.2 = Act.ambPlay s →
      a0.ambient = [] ∨ p.1 = t + cfg.audioFadeDuration) := by
  have hD := audioFadeDuration_pos cfg
  unfold smStartSceneAmbPart at hp
  split at hp
  case _ sa =>
    split at hp
    case _ srcs =>
      unfold aePlayAmbient at hp
      dsimp only [] at hp
      rcases List.mem_append.mp hp with h | h
      · unfold aeStopAmbient at h
        dsimp only [] at h
        rw [effAmbient_after_stop a0 cfg.audioFadeDuration t hD hc hq] at h
        rcases mem_fadeTrace _ _ _ _ _ _ h with ⟨l, hl, heq⟩ | ⟨l, hl, heq⟩
        · subst heq
          exact ⟨fun s hs => Act.noConfusion hs, fun s hs => Act.noConfusion hs⟩
        · subst heq
          refine ⟨fun s hs => ⟨rfl, ?_⟩, fun s hs => Act.noConfusion hs⟩
          intro h0
          rw [h0] at hl
          cases hl
      · obtain ⟨src, hsrc, heq⟩ := List.mem_map.mp h
        subst heq
        refine ⟨fun s hs => Act.noConfusion hs, fun s hs => ?_⟩
        by_cases h0 : a0.ambient = []
        · exact Or.inl h0
        · exact Or.inr (resolve_after_stop a0 cfg.audioFadeDuration t hD hc hq h0)
    case _ =>
      simp at hp
  case _ =>
    simp at hp

theorem lightPart_no_amb (cfg : Config) (scene : SceneCfg) (t : Nat)
    (p : Nat × Act) (hp : p ∈ (smStartSceneLightPart cfg scene t).2) :
    (∀ s, p.2 ≠ Act.ambPause s) ∧ (∀ s, p.2 ≠ Act.ambPlay s) := by
  unfold smStartSceneLightPart at hp
  rcases hsl : scene.lighting with _ | l
  · rw [hsl] at hp
    cases hp
  · rw [hsl] at hp
    rcases mem_lcApplySceneLighting _ _ _ _ _ hp with ⟨st2, h2⟩ | ⟨h2, hh2⟩
    · rw [h2]
      exact ⟨fun s hs => Act.noConfusion hs, fun s hs => Act.noConfusion hs⟩
    · rw [hh2]
      exact ⟨fun s hs => Act.noConfusion hs, fun s hs => Act.noConfusion hs⟩

theorem turnOff_no_amb (cfg : Config) (r : Option Bool) (f : Option Nat)
    (t : Nat) (p : Nat × Act) (hp : p ∈ lcTurnOffAll cfg r f t) :
    (∀ s, p.2 ≠ Act.ambPause s) ∧ (∀ s, p.2 ≠ Act.ambPlay s) := by
  obtain ⟨st2, h2⟩ := mem_lcTurnOffAll _ _ _ _ _ hp
  rw [h2]
  exact ⟨fun s hs => Act.noConfusion hs, fun s hs => Act.noConfusion hs⟩

/-- C1 counterexample: with scene A active (one playing ambient layer) and a
lighting/audio fade duration resolving to 1000 ms, `startScene("B")` marks B
active at time 0 while A's ambient layer is still fading out until 1000 ms —
it is never paused by time 0 — so A is *not* fully stopped (ambient fade-out
awaited) before B is marked active: `stopScene()` does not await
`stopAmbient()` (`src/unnamed/part_002` line 241 has no `await`). -/
theorem startScene_await_counterexample :
    ((0 : Nat), Act.setActive (some "B")) ∈ (smStartScene wC1 "B" 0).2.2 ∧
    ((1000 : Nat), Act.ambPause "a.mp3") ∈ (smStartScene wC1 "B" 0).2.2 ∧
    (∀ e ∈ (smStartScene wC1 "B" 0).2.2, e.2 = Act.ambPause "a.mp3" → 0 < e.1) := by
  decide

/-- C1 (amended): `startScene(B)` while A is active awaits the light-off
request and *initiates* A's ambient fade-out, but marks B active (at the call
time `t`) without awaiting that fade; nevertheless A's and B's ambient layers
never play simultaneously, because B's layers are started only after every
pause of the old layers (every ambient-pause event in the transition is at or
before every ambient-play event). -/
theorem startScene_handover_spec (w : World) (a b : String) (sb : SceneCfg) (t : Nat)
    (ha : w.activeScene = some a) (hsb : w.cfg.getScene b = some sb) (hab : a ≠ b)
    (hq : ∀ l ∈ w.audioSt.ambient, l.pauseT = none)
    (hc : w.audioSt.ambientClearAt = none) :
    (smStartScene w b t).1.activeScene = some b ∧
    (t, Act.setActive (some b)) ∈ (smStartScene w b t).2.2 ∧
    (∀ e1 ∈ (smStartScene w b t).2.2, ∀ e2 ∈ (smStartScene w b t).2.2,
      (∃ s1, e1.2 = Act.ambPause s1) → (∃ s2, e2.2 = Act.ambPlay s2) →
      e1.1 ≤ e2.1) := by
  have hne : ¬((some a : Option String) = some b) := by
    intro hcon
    exact hab (Option.some.inj hcon)
  refine ⟨?_, ?_, ?_⟩
  · simp only [smStartScene, hsb, ha]
    rw [if_neg hne]
  · simp only [smStartScene, hsb, ha, smStopScene]
    rw [if_neg hne]
    simp [List.mem_append]
  · intro e1 he1 e2 he2 h1 h2
    obtain ⟨s1, hs1⟩ := h1
    obtain ⟨s2, hs2⟩ := h2
    simp only [smStartScene, hsb, ha, smStopScene] at he1 he2
    rw [if_neg hne] at he1 he2
    simp only [List.mem_append, List.mem_singleton] at he1 he2
    have hpause : e1.1 = t + w.cfg.audioFadeDuration ∧ w.audioSt.ambient ≠ [] := by
      rcases he1 with ((((h | h) | h) | h) | h) | h
      · exact (noawait_pause_play w.audioSt w.cfg.audioFadeDuration t hc e1 h).1 s1 hs1
      · exact absurd hs1 ((turnOff_no_amb _ _ _ _ _ h).1 s1)
      · rw [h] at hs1
        exact Act.noConfusion hs1
      · rw [h] at hs1
        exact Act.noConfusion hs1
      · exact (ambPart_pause_play w.cfg w.audioSt sb t hc hq e1 h).1 s1 hs1
      · exact absurd hs1 ((lightPart_no_amb _ _ _ _ h).1 s1)
    have hplay : e2.1 = t + w.cfg.audioFadeDuration := by
      rcases he2 with ((((h | h) | h) | h) | h) | h
      · exact absurd hs2 ((noawait_pause_play w.audioSt w.cfg.audioFadeDuration t hc e2 h).2 s2)
      · exact absurd hs2 ((turnOff_no_amb _ _ _ _ _ h).2 s2)
      · rw [h] at hs2
        exact Act.noConfusion hs2
      · rw [h] at hs2
        exact Act.noConfusion hs2
      · rcases (ambPart_pause_play w.cfg w.audioSt sb t hc hq e2 h).2 s2 hs2 with h0 | h0
        · exact absurd h0 hpause.2
        · exact h0
      · exact absurd hs2 ((lightPart_no_amb _ _ _ _ h).2 s2)
    rw [hpause.1, hplay]

/-- C1 witness: the concrete A-to-B handover (A active with its layer). -/
theorem startScene_handover_witness :
    (smStartScene wC1 "B" 0).1.activeScene = some "B" ∧
    ((0 : Nat), Act.setActive (some "B")) ∈ (smStartScene wC1 "B" 0).2.2 ∧
    (∀ e1 ∈ (smStartScene wC1 "B" 0).2.2, ∀ e2 ∈ (smStartScene wC1 "B" 0).2.2,
      (∃ s1, e1.2 = Act.ambPause s1) → (∃ s2, e2.2 = Act.ambPlay s2) →
      e1.1 ≤ e2.1) :=
  startScene_handover_spec wC1 "A" "B"
    { name := "B", audioCfg := some { ambient := some ["b.mp3"] }, lighting := some { wled := some { brightness := some 200, color := some [9, 9, 9] } } }
    0 rfl (by decide) (by decide) (by decide) rfl
